import Mathlib

/-!
Verification of the OLWP-POC-PFE integration service against its
natural-language specification.

The development shallowly embeds the pipeline-relevant JavaScript of the
repository.  External HTTP services (the Gitea host, the OpenSearch store,
the Moqui downstream system, the notification channels) are modelled by
explicit result values or small state models; every embedded function is
translated from the corresponding source function and keeps its name.
Asynchronous JavaScript is modelled by sequential evaluation of the awaited
results; a `Promise.all` join is modelled by propagation of the first
rejection, and a rejected `await` is modelled by `Except.error`.
-/

/-- Error raised by a failed external HTTP call.  `status` mirrors
`error.response?.status` in the axios error handlers (absent for network
errors that carry no HTTP response). -/
structure HttpErr where
  status : Option Nat
  msg : String := ""
deriving DecidableEq, Repr

/-- JavaScript truthiness of an optional string: `undefined`, `null` and the
empty string are falsy; every other string is truthy. -/
def present (o : Option String) : Bool :=
  match o with
  | none => false
  | some s => s ≠ ""

/-- JavaScript `a || b` on optional strings: returns `a` when it is truthy,
otherwise `b` (which may itself be absent or empty). -/
def jsOr (a b : Option String) : Option String :=
  if present a then a else b

/-- JavaScript `a || d` where the fallback `d` is a plain string. -/
def jsOrStr (a : Option String) (d : String) : String :=
  match a with
  | some s => if s = "" then d else s
  | none => d

/-!
SECTION: Index store documents

An indexed document is modelled as an association list from field names to
string values; lookups return the first binding, so prepending a binding
overrides an older one, which models JavaScript object spread and the
OpenSearch partial-document (merge-patch) update at the level of field
lookups.
-/

/-- Document stored in the search index: field name to value bindings,
first binding wins. -/
abbrev Doc := List (String × String)

/-- Read one field of a document (first binding wins). -/
def getField (d : Doc) (k : String) : Option String :=
  (d.find? (fun p => p.1 = k)).map Prod.snd

/-- Embedding of `OpenSearchService.updateContact` (cdmModels.js
concatenation, openSearchService part): the handler sends a partial
document `doc = { ...updateData, modifiedOn: new Date().toISOString() }`
and the store merges it over the stored document.  `now` stands for the
serialized current time. -/
def updateContact (stored updateData : Doc) (now : String) : Doc :=
  (("modifiedOn", now) :: updateData) ++ stored

theorem getField_cons (k k' v : String) (d : Doc) :
    getField ((k', v) :: d) k = if k' = k then some v else getField d k := by
  by_cases h : k' = k <;> simp [getField, List.find?, h]

theorem getField_append (d₁ d₂ : Doc) (k : String) :
    getField (d₁ ++ d₂) k = ((getField d₁ k).orElse (fun _ => getField d₂ k)) := by
  induction d₁ with
  | nil => simp [getField]
  | cons p d ih =>
      rcases p with ⟨k', v⟩
      by_cases h : k' = k
      · simp [getField_cons, h]
      · simpa [getField_cons, h] using ih

/-- C8.  For every `update(id, partialFields)` call on the index adapter,
only the provided fields of the stored record change (every other field
keeps its previous value) and the `modifiedOn` timestamp is always
refreshed to the time of the update, even when the patch itself carries a
`modifiedOn` value. -/
theorem updateContact_merge_patch (stored updateData : Doc) (now : String) :
    getField (updateContact stored updateData now) "modifiedOn" = some now
    ∧ (∀ k v, k ≠ "modifiedOn" → getField updateData k = some v →
        getField (updateContact stored updateData now) k = some v)
    ∧ (∀ k, k ≠ "modifiedOn" → getField updateData k = none →
        getField (updateContact stored updateData now) k = getField stored k) := by
  refine ⟨?_, ?_, ?_⟩
  · simp [updateContact, getField_append, getField_cons]
  · intro k v hk hget
    have hk' : ¬ ("modifiedOn" = k) := fun h => hk h.symm
    simp [updateContact, getField_append, getField_cons, hk', hget]
  · intro k hk hget
    have hk' : ¬ ("modifiedOn" = k) := fun h => hk h.symm
    simp [updateContact, getField_append, getField_cons, hk', hget]

/-- Witness for `updateContact_merge_patch` at a concrete store, patch and
clock. -/
theorem updateContact_merge_patch_witness :
    getField (updateContact
        [("fullName", "Jane Roe"), ("syncStatus", "pending_review"),
         ("modifiedOn", "t0")]
        [("syncStatus", "synced"), ("moquiId", "P1")] "t1") "modifiedOn"
      = some "t1"
    ∧ getField (updateContact
        [("fullName", "Jane Roe"), ("syncStatus", "pending_review"),
         ("modifiedOn", "t0")]
        [("syncStatus", "synced"), ("moquiId", "P1")] "t1") "syncStatus"
      = some "synced"
    ∧ getField (updateContact
        [("fullName", "Jane Roe"), ("syncStatus", "pending_review"),
         ("modifiedOn", "t0")]
        [("syncStatus", "synced"), ("moquiId", "P1")] "t1") "fullName"
      = some "Jane Roe" := by
  have h := updateContact_merge_patch
    [("fullName", "Jane Roe"), ("syncStatus", "pending_review"),
     ("modifiedOn", "t0")]
    [("syncStatus", "synced"), ("moquiId", "P1")] "t1"
  exact ⟨h.1, h.2.1 "syncStatus" "synced" (by decide) (by decide),
    h.2.2 "fullName" (by decide) (by decide)⟩

/-!
SECTION: Index-store bootstrap (`OpenSearchService` in the cdmModels.js
concatenation)

The store holds three collections; `none` means the index does not exist,
`some docs` means it exists and contains `docs`.  `initialize` (on a
non-red cluster) runs `ResetReferenceIndices` followed by `ensureIndices`;
that successful path is embedded as `bootstrapIndices`.
-/

/-- Static reference row as written in the `referenceData` literal of
`seedReferenceData`.  `country` carries the optional `metadata.country`. -/
structure RefRow where
  type : String
  category : String
  value : String
  label : String
  sortOrder : Nat
  country : Option String := none
deriving DecidableEq, Repr

/-- Reference document as indexed by the seeding bulk call, which enriches
each row with `isActive: true` and creation/update timestamps. -/
structure RefDoc where
  row : RefRow
  isActive : Bool
  createdAt : String
  updatedAt : String
deriving DecidableEq, Repr

/-- State of the OpenSearch store restricted to the three collections the
service provisions. -/
structure IndexStoreState where
  contacts : Option (List Doc)
  referenceData : Option (List RefDoc)
  notifications : Option (List Doc)

/-- The static `referenceData` literal of
`OpenSearchService.seedReferenceData`. -/
def referenceDataRows : List RefRow := [
  ⟨"country", "geography", "MA", "Morocco", 1, none⟩,
  ⟨"country", "geography", "US", "United States", 2, none⟩,
  ⟨"country", "geography", "CA", "Canada", 3, none⟩,
  ⟨"country", "geography", "UK", "United Kingdom", 4, none⟩,
  ⟨"country", "geography", "FR", "France", 5, none⟩,
  ⟨"country", "geography", "DE", "Germany", 6, none⟩,
  ⟨"state", "geography", "MA-01", "Région de Tanger – Tétouan", 1, some "MA"⟩,
  ⟨"state", "geography", "MA-02", "Région de l’Oriental et du Rif", 2, some "MA"⟩,
  ⟨"state", "geography", "MA-03", "Région de Fès – Meknès", 3, some "MA"⟩,
  ⟨"state", "geography", "MA-04", "Région de Rabat – Salé – Kénitra", 4, some "MA"⟩,
  ⟨"state", "geography", "MA-05", "Région de Béni Mellal – Khénifra", 5, some "MA"⟩,
  ⟨"state", "geography", "MA-06", "Région de Casablanca – Settat", 6, some "MA"⟩,
  ⟨"state", "geography", "MA-07", "Région de Marrakech – Safi", 7, some "MA"⟩,
  ⟨"state", "geography", "MA-08", "Région de Daraâ – Tafilalet", 8, some "MA"⟩,
  ⟨"state", "geography", "MA-09", "Région de Souss – Massa", 9, some "MA"⟩,
  ⟨"state", "geography", "MA-10", "Région de Guelmime – Oued Noun", 10, some "MA"⟩,
  ⟨"state", "geography", "MA-11", "Région de Laâyoune – Sakia al Hamra", 11, some "MA"⟩,
  ⟨"state", "geography", "MA-12", "Région de Ed Dakhla – Oued Dahab", 12, some "MA"⟩,
  ⟨"state", "geography", "CA", "California", 1, some "US"⟩,
  ⟨"state", "geography", "NY", "New York", 2, some "US"⟩,
  ⟨"state", "geography", "TX", "Texas", 3, some "US"⟩,
  ⟨"state", "geography", "FL", "Florida", 4, some "US"⟩,
  ⟨"contactMethod", "communication", "email", "Email", 1, none⟩,
  ⟨"contactMethod", "communication", "phone", "Phone", 2, none⟩,
  ⟨"contactMethod", "communication", "mail", "Mail", 3, none⟩,
  ⟨"jobTitle", "professional", "CEO", "Chief Executive Officer", 1, none⟩,
  ⟨"jobTitle", "professional", "CTO", "Chief Technology Officer", 2, none⟩,
  ⟨"jobTitle", "professional", "Manager", "Manager", 3, none⟩,
  ⟨"jobTitle", "professional", "Developer", "Software Developer", 4, none⟩,
  ⟨"jobTitle", "professional", "Analyst", "Business Analyst", 5, none⟩,
  ⟨"department", "organization", "IT", "Information Technology", 1, none⟩,
  ⟨"department", "organization", "HR", "Human Resources", 2, none⟩,
  ⟨"department", "organization", "Finance", "Finance", 3, none⟩,
  ⟨"department", "organization", "Sales", "Sales", 4, none⟩,
  ⟨"department", "organization", "Marketing", "Marketing", 5, none⟩,
  ⟨"industry", "business", "Technology", "Technology", 1, none⟩,
  ⟨"industry", "business", "Healthcare", "Healthcare", 2, none⟩,
  ⟨"industry", "business", "Finance", "Finance", 3, none⟩,
  ⟨"industry", "business", "Education", "Education", 4, none⟩,
  ⟨"industry", "business", "Manufacturing", "Manufacturing", 5, none⟩]

/-- Embedding of `OpenSearchService.seedReferenceData`: bulk-indexes the
static rows enriched with `isActive: true` and the current timestamps. -/
def seedReferenceData (now : String) : List RefDoc :=
  referenceDataRows.map (fun r => ⟨r, true, now, now⟩)

/-- Embedding of `OpenSearchService.ResetReferenceIndices`: deletes the
reference-data index when it exists, otherwise does nothing. -/
def ResetReferenceIndices (st : IndexStoreState) : IndexStoreState :=
  if st.referenceData.isSome then { st with referenceData := none } else st

/-- Embedding of `OpenSearchService.ResetContactIndices`: deletes the
contacts index when it exists, otherwise does nothing. -/
def ResetContactIndices (st : IndexStoreState) : IndexStoreState :=
  if st.contacts.isSome then { st with contacts := none } else st

/-- Embedding of `OpenSearchService.ensureIndices`: creates each of the
three indices only when it is absent, and seeds the reference data exactly
when the reference index was just created. -/
def ensureIndices (now : String) (st : IndexStoreState) : IndexStoreState :=
  let st1 := if st.contacts.isNone then { st with contacts := some [] } else st
  let st2 :=
    if st1.referenceData.isNone then
      { st1 with referenceData := some (seedReferenceData now) }
    else st1
  if st2.notifications.isNone then { st2 with notifications := some [] } else st2

/-- Embedding of the successful pass of `OpenSearchService.initialize`
(cluster health not red): `ResetReferenceIndices` then `ensureIndices`. -/
def bootstrapIndices (now : String) (st : IndexStoreState) : IndexStoreState :=
  ensureIndices now (ResetReferenceIndices st)

/-- C9.  Index bootstrap unconditionally deletes and recreates the
reference-data collection and reseeds the static lookup rows, while the
records and notifications collections are only created when absent:
whatever documents those two collections held before bootstrap are still
there afterwards, and when either was absent it is created empty. -/
theorem bootstrap_reference_destructive_others_preserved
    (now : String) (st : IndexStoreState) :
    (bootstrapIndices now st).referenceData = some (seedReferenceData now)
    ∧ (bootstrapIndices now st).contacts = some (st.contacts.getD [])
    ∧ (bootstrapIndices now st).notifications = some (st.notifications.getD []) := by
  rcases st with ⟨c, r, n⟩
  rcases c with _ | c <;> rcases r with _ | r <;> rcases n with _ | n <;>
    simp [bootstrapIndices, ensureIndices, ResetReferenceIndices]

/-!
SECTION: Version-control adapter (`GiteaService`, giteaService.js)

Each embedded operation takes the responses of the remote HTTP calls it
issues as explicit `Except` arguments, in the order the source awaits
them.  A small remote-state instantiation (`createBranchOn`) models the
Gitea host for the idempotency claim: the host answers the branch-creation
POST with HTTP 422 when a branch of that name already exists.
-/

/-- Embedding of `GiteaService.createBranch`: the `try` block awaits the
base-branch ref lookup and then the branch-creation POST; the `catch`
returns the branch name as success when the error status is 422 (branch
already exists, logged as a warning) and re-raises any other error. -/
def createBranchBody (baseRef : Except HttpErr String)
    (createApi : Except HttpErr Unit) : Except HttpErr Unit :=
  match baseRef with
  | .error e => .error e
  | .ok _ => createApi

/-- Embedding of the surrounding `try`/`catch` of
`GiteaService.createBranch`. -/
def createBranch (baseRef : Except HttpErr String)
    (createApi : Except HttpErr Unit) (branchName : String) :
    Except HttpErr String :=
  match createBranchBody baseRef createApi with
  | .ok _ => .ok branchName
  | .error e => if e.status = some 422 then .ok branchName else .error e

/-- Remote model of `GET git/refs/heads/base`: the ref exists exactly when
the base branch does; a missing ref answers 404. -/
def giteaGetBaseRef (branches : List String) (base : String) :
    Except HttpErr String :=
  if base ∈ branches then .ok ("sha-" ++ base) else .error ⟨some 404, "no ref"⟩

/-- Remote model of `POST repos/.../branches`: creating an existing branch
name answers HTTP 422; otherwise the branch is appended. -/
def giteaCreateBranchApi (branches : List String) (name : String) :
    Except HttpErr (List String) :=
  if name ∈ branches then .error ⟨some 422, "branch exists"⟩
  else .ok (branches ++ [name])

/-- `GiteaService.createBranch` run against the remote-state model:
returns the call result together with the branch list after the call. -/
def createBranchOn (branches : List String) (name base : String) :
    Except HttpErr String × List String :=
  let api := giteaCreateBranchApi branches name
  (createBranch (giteaGetBaseRef branches base) (api.map (fun _ => ())) name,
   match giteaGetBaseRef branches base, api with
   | .ok _, .ok bs => bs
   | _, _ => branches)

/-- C6.  `createBranch` is idempotent with respect to the branch name: with
the base branch present and the name fresh, the first call succeeds and
adds the branch; the second call with the same name receives the remote
conflict (422), still returns success, and leaves the branch list
unchanged, so exactly one branch of that name exists.  Any error whose
status is not the 422 conflict propagates to the caller, whether it comes
from the base-ref lookup or from the creation call. -/
theorem createBranch_idempotent_conflict_tolerant :
    (∀ (branches : List String) (name base : String),
      base ∈ branches → name ∉ branches →
        (createBranchOn branches name base).1 = .ok name
        ∧ (createBranchOn branches name base).2 = branches ++ [name]
        ∧ (createBranchOn (branches ++ [name]) name base).1 = .ok name
        ∧ (createBranchOn (branches ++ [name]) name base).2 = branches ++ [name]
        ∧ ((createBranchOn (branches ++ [name]) name base).2).count name = 1)
    ∧ (∀ (e : HttpErr) (createApi : Except HttpErr Unit) (name : String),
        e.status ≠ some 422 →
          createBranch (.error e) createApi name = .error e)
    ∧ (∀ (e : HttpErr) (name sha : String), e.status ≠ some 422 →
        createBranch (.ok sha) (.error e) name = .error e) := by
  refine ⟨?_, ?_, ?_⟩
  · intro branches name base hbase hname
    have hbase' : base ∈ branches ++ [name] := List.mem_append_left _ hbase
    have hcount : branches.count name = 0 := List.count_eq_zero.mpr hname
    refine ⟨?_, ?_, ?_, ?_, ?_⟩
    · simp [createBranchOn, createBranch, createBranchBody, giteaGetBaseRef,
        giteaCreateBranchApi, hbase, hname, Except.map]
    · simp [createBranchOn, createBranch, createBranchBody, giteaGetBaseRef,
        giteaCreateBranchApi, hbase, hname, Except.map]
    · simp [createBranchOn, createBranch, createBranchBody, giteaGetBaseRef,
        giteaCreateBranchApi, hbase', Except.map]
    · simp [createBranchOn, createBranch, createBranchBody, giteaGetBaseRef,
        giteaCreateBranchApi, hbase', Except.map]
    · simp [createBranchOn, giteaGetBaseRef, giteaCreateBranchApi, hbase',
        List.count_append, hcount]
  · intro e createApi name he
    simp [createBranch, createBranchBody, he]
  · intro e name sha he
    simp [createBranch, createBranchBody, he]

/-- Witness for `createBranch_idempotent_conflict_tolerant` on a repository
holding only `main`, creating `contact-abc` twice, and on a concrete
non-conflict error (HTTP 500). -/
theorem createBranch_idempotent_conflict_tolerant_witness :
    (createBranchOn ["main"] "contact-abc" "main").1 = .ok "contact-abc"
    ∧ (createBranchOn ["main", "contact-abc"] "contact-abc" "main").1
        = .ok "contact-abc"
    ∧ ((createBranchOn ["main", "contact-abc"] "contact-abc" "main").2).count
        "contact-abc" = 1
    ∧ createBranch (.ok "sha-main") (.error ⟨some 500, "boom"⟩) "contact-abc"
        = .error ⟨some 500, "boom"⟩ := by
  have h := createBranch_idempotent_conflict_tolerant
  have h1 := h.1 ["main"] "contact-abc" "main" (by decide) (by decide)
  have h2 := h.2.2 ⟨some 500, "boom"⟩ "contact-abc" "sha-main" (by decide)
  exact ⟨h1.1, h1.2.2.1, h1.2.2.2.2, h2⟩

/-- Embedding of `GiteaService.getFileContent`: a 404 from the contents GET
is folded into "file absent" (`none`); any other error propagates; a
successful response yields the file sha used as the update token. -/
def getFileContent (apiResult : Except HttpErr (Option String)) :
    Except HttpErr (Option String) :=
  match apiResult with
  | .error e => if e.status = some 404 then .ok none else .error e
  | .ok v => .ok v

/-- Responses of the remote calls one `GiteaService.commitFile` issues:
the contents lookup, the update PUT (taken when the file exists) and the
create POST (taken otherwise). -/
structure FileEnv where
  lookup : Except HttpErr (Option String)
  putRes : Except HttpErr Unit
  postRes : Except HttpErr Unit

/-- Embedding of `GiteaService.commitFile`: reads the current file to
obtain its sha, then updates with that sha when present and creates the
file otherwise. -/
def commitFile (env : FileEnv) : Except HttpErr Unit :=
  match getFileContent env.lookup with
  | .error e => .error e
  | .ok (some _) => env.putRes
  | .ok none => env.postRes

/-- Responses of the remote calls `GiteaService.commitCdmData` issues, in
the order the source awaits them. -/
structure CommitEnv where
  ensureRepo : Except HttpErr Unit
  baseRef : Except HttpErr String
  createBranchApi : Except HttpErr Unit
  dataFile : FileEnv
  metadataFile : FileEnv
  createPR : Except HttpErr Nat
  deleteBranch : Except HttpErr Unit

/-- Side effects of `commitCdmData` recorded for the compensation claim. -/
inductive CommitAction where
  | deleteBranchAttempt
  | deleteBranchFailedLog
deriving DecidableEq, Repr

/-- Embedding of the `try` block of `GiteaService.commitCdmData`: ensure
repository, create the feature branch (422-tolerant), commit the record
payload file, commit the submission metadata file, open the pull request
(whose number the remote returns). -/
def commitBody (env : CommitEnv) (branchName : String) : Except HttpErr Nat :=
  match env.ensureRepo with
  | .error e => .error e
  | .ok _ =>
    match createBranch env.baseRef env.createBranchApi branchName with
    | .error e => .error e
    | .ok _ =>
      match commitFile env.dataFile with
      | .error e => .error e
      | .ok _ =>
        match commitFile env.metadataFile with
        | .error e => .error e
        | .ok _ => env.createPR

/-- Embedding of `GiteaService.commitCdmData`: the branch name is computed
before the `try`; on any failure inside the `try` the `catch` attempts
`deleteBranch(branchName)` as compensation, logs (and otherwise ignores) a
compensation failure, and re-raises the original error. -/
def commitCdmData (env : CommitEnv) (branchName : String) :
    Except HttpErr Nat × List CommitAction :=
  match commitBody env branchName with
  | .ok pr => (.ok pr, [])
  | .error e =>
    match env.deleteBranch with
    | .ok _ => (.error e, [.deleteBranchAttempt])
    | .error _ => (.error e, [.deleteBranchAttempt, .deleteBranchFailedLog])

/-- C4.  Whenever the composite commit operation fails after computing the
branch name, it attempts `deleteBranch` as a compensating action and
re-raises the original error; the outcome of the compensation never
replaces the surfaced error, since the result is the original error for
every possible `deleteBranch` response. -/
theorem commitCdmData_compensation (env : CommitEnv) (branchName : String)
    (e : HttpErr) (hfail : commitBody env branchName = .error e) :
    (commitCdmData env branchName).1 = .error e
    ∧ CommitAction.deleteBranchAttempt ∈ (commitCdmData env branchName).2
    ∧ (∀ d : Except HttpErr Unit,
        (commitCdmData { env with deleteBranch := d } branchName).1
          = .error e) := by
  have hbody : ∀ d : Except HttpErr Unit,
      commitBody { env with deleteBranch := d } branchName = .error e := by
    intro d
    simpa [commitBody] using hfail
  refine ⟨?_, ?_, ?_⟩
  · rcases hdel : env.deleteBranch with _ | u <;>
      simp [commitCdmData, hfail, hdel]
  · rcases hdel : env.deleteBranch with _ | u <;>
      simp [commitCdmData, hfail, hdel]
  · intro d
    match d with
    | .error e2 => simp [commitCdmData, hbody (.error e2)]
    | .ok u => simp [commitCdmData, hbody (.ok u)]

/-- Witness for `commitCdmData_compensation`: the pull-request creation
fails with HTTP 500 after both files were committed, and the compensation
deletion itself fails with HTTP 503; the surfaced error is still the
original 500 and the deletion was attempted. -/
theorem commitCdmData_compensation_witness :
    (commitCdmData
      { ensureRepo := .ok (), baseRef := .ok "sha-main",
        createBranchApi := .ok (),
        dataFile := ⟨.ok none, .ok (), .ok ()⟩,
        metadataFile := ⟨.ok none, .ok (), .ok ()⟩,
        createPR := .error ⟨some 500, "pr failed"⟩,
        deleteBranch := .error ⟨some 503, "cleanup failed"⟩ }
      "contact-abc-20250101").1 = .error ⟨some 500, "pr failed"⟩
    ∧ CommitAction.deleteBranchAttempt ∈ (commitCdmData
      { ensureRepo := .ok (), baseRef := .ok "sha-main",
        createBranchApi := .ok (),
        dataFile := ⟨.ok none, .ok (), .ok ()⟩,
        metadataFile := ⟨.ok none, .ok (), .ok ()⟩,
        createPR := .error ⟨some 500, "pr failed"⟩,
        deleteBranch := .error ⟨some 503, "cleanup failed"⟩ }
      "contact-abc-20250101").2 := by
  have h := commitCdmData_compensation
    { ensureRepo := .ok (), baseRef := .ok "sha-main",
      createBranchApi := .ok (),
      dataFile := ⟨.ok none, .ok (), .ok ()⟩,
      metadataFile := ⟨.ok none, .ok (), .ok ()⟩,
      createPR := .error ⟨some 500, "pr failed"⟩,
      deleteBranch := .error ⟨some 503, "cleanup failed"⟩ }
    "contact-abc-20250101" ⟨some 500, "pr failed"⟩ rfl
  exact ⟨h.1, h.2.1⟩

/-!
SECTION: Downstream propagation adapter (`MoquiService` in the
webhookController.js concatenation)

`createContact` first creates the remote person, then starts one
contact-mechanism POST per present channel and awaits them with
`Promise.all` (so the await re-raises the first rejection), then runs the
employment and custom-attribute sub-steps, each of which swallows its own
errors (the source comments these as not critical, never re-thrown).
-/

/-- Contact data flowing into the downstream adapter (the fields
`createContact` and its helpers read). -/
structure ContactData where
  contactId : Option String := none
  fullName : String := ""
  emailAddress : Option String := none
  phoneNumber : Option String := none
  addressLine1 : Option String := none
  addressLine2 : Option String := none
  city : Option String := none
  stateProvince : Option String := none
  postalCode : Option String := none
  country : Option String := none
  company : Option String := none
  jobTitle : Option String := none
  department : Option String := none
  preferredContactMethod : Option String := none
  notes : Option String := none
  tags : List String := []
  hasCustomFields : Bool := false
deriving DecidableEq, Repr

/-- Responses of the remote Moqui calls, one field per awaited call. -/
structure MoquiEnv where
  createPerson : Except HttpErr String
  emailMech : Except HttpErr Unit
  phoneMech : Except HttpErr Unit
  postalMech : Except HttpErr Unit
  findOrCreateOrganization : Except HttpErr String
  relationship : Except HttpErr Unit
  roles : Except HttpErr Unit
  attributes : Except HttpErr Unit

/-- Remote Moqui call as recorded in the adapter trace. -/
inductive MoquiCall where
  | createPerson
  | emailMech
  | phoneMech
  | postalMech
  | employment
  | attributes
deriving DecidableEq, Repr

/-- Result value of `MoquiService.createContact` (the fields the callers
inspect). -/
structure CreateContactResult where
  success : Bool
  moquiId : Option String
deriving DecidableEq, Repr

/-- The `contactPromises` array: one started POST per present channel —
email and phone when the corresponding field is truthy, postal when
`addressLine1 || city` is truthy. -/
def contactPromises (env : MoquiEnv) (c : ContactData) :
    List (MoquiCall × Except HttpErr Unit) :=
  (if present c.emailAddress then [(.emailMech, env.emailMech)] else [])
  ++ (if present c.phoneNumber then [(.phoneMech, env.phoneMech)] else [])
  ++ (if present c.addressLine1 || present c.city then
        [(.postalMech, env.postalMech)] else [])

/-- `await Promise.all(...)`: the first rejection re-raises; otherwise the
join succeeds. -/
def promiseAll : List (Except HttpErr Unit) → Except HttpErr Unit
  | [] => .ok ()
  | r :: rs =>
    match r with
    | .error e => .error e
    | .ok _ => promiseAll rs

/-- Embedding of the body of `MoquiService.addEmploymentInfo` before its
`catch`: find-or-create the organization, create the employment
relationship, and add the role when a job title is present. -/
def addEmploymentInfoBody (env : MoquiEnv) (c : ContactData) :
    Except HttpErr Unit :=
  match env.findOrCreateOrganization with
  | .error e => .error e
  | .ok _ =>
    match env.relationship with
    | .error e => .error e
    | .ok _ => if present c.jobTitle then env.roles else .ok ()

/-- Embedding of the body of `MoquiService.addCustomAttributes` before its
`catch`: post the collected attributes. -/
def addCustomAttributesBody (env : MoquiEnv) : Except HttpErr Unit :=
  env.attributes

/-- The `catch` of the two best-effort sub-steps: the error is logged and
discarded, never re-raised. -/
def swallowError (r : Except HttpErr Unit) : Unit :=
  match r with
  | .ok _ => ()
  | .error _ => ()

/-- Embedding of `MoquiService.createContact`: create the person (a
failure here is caught and reported as `success: false`), await the
contact-mechanism promises with `Promise.all` (a rejection is caught the
same way), then run the best-effort employment and attribute sub-steps and
report success with the remote party id.  Returns the result together with
the trace of remote calls started. -/
def createContact (env : MoquiEnv) (c : ContactData) :
    CreateContactResult × List MoquiCall :=
  match env.createPerson with
  | .error _ => (⟨false, none⟩, [.createPerson])
  | .ok partyId =>
    let promises := contactPromises env c
    let started := MoquiCall.createPerson :: promises.map Prod.fst
    match promiseAll (promises.map Prod.snd) with
    | .error _ => (⟨false, none⟩, started)
    | .ok _ =>
      let empCalls :=
        if present c.company then
          let _ := swallowError (addEmploymentInfoBody env c)
          [MoquiCall.employment]
        else []
      let attrCalls :=
        if c.hasCustomFields || present c.notes then
          let _ := swallowError (addCustomAttributesBody env)
          [MoquiCall.attributes]
        else []
      (⟨true, some partyId⟩, started ++ empCalls ++ attrCalls)

/-- Counterexample to C1 as stated: the remote person creation succeeds
(party `P1`), the record has an email address, and the email
contact-mechanism POST fails with HTTP 503; `createContact` reports
`success: false`, so a contact-channel failure is fatal to the overall
operation — the join is `Promise.all`, not an all-settled join. -/
theorem createContact_channel_failure_fatal_counterexample :
    (createContact
      { createPerson := .ok "P1", emailMech := .error ⟨some 503, "down"⟩,
        phoneMech := .ok (), postalMech := .ok (),
        findOrCreateOrganization := .ok "ORG1", relationship := .ok (),
        roles := .ok (), attributes := .ok () }
      { fullName := "Jane Roe", emailAddress := some "jane@x.com" }).1.success
      = false := by
  decide

/-- A `Promise.all` join over calls that all succeeded succeeds. -/
theorem promiseAll_ok (rs : List (Except HttpErr Unit))
    (h : ∀ r ∈ rs, r = Except.ok ()) : promiseAll rs = .ok () := by
  induction rs with
  | nil => rfl
  | cons r rs ih =>
      have hr := h r (List.mem_cons_self r rs)
      simp [promiseAll, hr]
      exact ih (fun x hx => h x (List.mem_cons_of_mem r hx))

/-- C1 (amended).  For every record whose remote person creation succeeds
and whose started contact-channel calls all succeed, `createContact`
returns a top-level success carrying the remote party id, whatever the
outcomes of the employment and custom-attribute sub-operations; a failure
of a started contact-channel call, however, makes the overall result
`success: false`. -/
theorem createContact_success_despite_best_effort_failures
    (env : MoquiEnv) (c : ContactData) (partyId : String)
    (hperson : env.createPerson = .ok partyId)
    (hemail : present c.emailAddress → env.emailMech = .ok ())
    (hphone : present c.phoneNumber → env.phoneMech = .ok ())
    (hpostal : present c.addressLine1 ∨ present c.city →
      env.postalMech = .ok ()) :
    (createContact env c).1 = ⟨true, some partyId⟩
    ∧ (∀ org rel rol attr,
        (createContact
          { env with
            findOrCreateOrganization := org, relationship := rel,
            roles := rol, attributes := attr } c).1 = ⟨true, some partyId⟩)
    ∧ (∀ e : HttpErr, present c.emailAddress →
        (createContact { env with emailMech := .error e } c).1.success
          = false) := by
  have hall : ∀ env2 : MoquiEnv,
      env2.createPerson = .ok partyId →
      env2.emailMech = env.emailMech → env2.phoneMech = env.phoneMech →
      env2.postalMech = env.postalMech →
      (createContact env2 c).1 = ⟨true, some partyId⟩ := by
    intro env2 h1 h2 h3 h4
    have hmem : ∀ r ∈ (contactPromises env2 c).map Prod.snd,
        r = Except.ok () := by
      intro r hr
      simp only [contactPromises, List.map_append, List.mem_append] at hr
      rcases hr with (hr | hr) | hr
      · by_cases he : present c.emailAddress
        · simp [he] at hr
          rw [hr, h2]
          exact hemail he
        · simp [he] at hr
      · by_cases hp : present c.phoneNumber
        · simp [hp] at hr
          rw [hr, h3]
          exact hphone hp
        · simp [hp] at hr
      · by_cases ha : (present c.addressLine1 || present c.city) = true
        · simp [ha] at hr
          rw [hr, h4]
          refine hpostal ?_
          simpa using ha
        · simp [ha] at hr
    have hjoin := promiseAll_ok _ hmem
    simp [createContact, h1, hjoin]
  refine ⟨?_, ?_, ?_⟩
  · exact hall env hperson rfl rfl rfl
  · intro org rel rol attr
    exact hall _ hperson rfl rfl rfl
  · intro e hmail
    simp [createContact, hperson, contactPromises, hmail, promiseAll]

/-- Witness for `createContact_success_despite_best_effort_failures`: the
person is created, the email channel succeeds, and the operation reports
success even though the employment sub-step fails with HTTP 503. -/
theorem createContact_success_despite_best_effort_failures_witness :
    (createContact
      { createPerson := .ok "P1", emailMech := .ok (), phoneMech := .ok (),
        postalMech := .ok (), findOrCreateOrganization := .ok "ORG1",
        relationship := .ok (), roles := .ok (), attributes := .ok () }
      { fullName := "Jane Roe", emailAddress := some "jane@x.com",
        company := some "Acme" }).1 = ⟨true, some "P1"⟩
    ∧ (createContact
      { createPerson := .ok "P1", emailMech := .ok (), phoneMech := .ok (),
        postalMech := .ok (),
        findOrCreateOrganization := .error ⟨some 503, "down"⟩,
        relationship := .ok (), roles := .ok (), attributes := .ok () }
      { fullName := "Jane Roe", emailAddress := some "jane@x.com",
        company := some "Acme" }).1 = ⟨true, some "P1"⟩ := by
  have h := createContact_success_despite_best_effort_failures
    { createPerson := .ok "P1", emailMech := .ok (), phoneMech := .ok (),
      postalMech := .ok (), findOrCreateOrganization := .ok "ORG1",
      relationship := .ok (), roles := .ok (), attributes := .ok () }
    { fullName := "Jane Roe", emailAddress := some "jane@x.com",
      company := some "Acme" }
    "P1" rfl (fun _ => rfl) (fun _ => rfl) (fun _ => rfl)
  exact ⟨h.1, h.2.1 (.error ⟨some 503, "down"⟩) (.ok ()) (.ok ()) (.ok ())⟩

/-!
SECTION: Webhook controller (webhookController.js)

`POST /api/webhooks/gitea` runs the `verifyWebhookSignature` middleware
and then dispatches on the event.  Express semantics used by the
embedding: a middleware that sends a response ends the request with that
response; a synchronous throw inside a middleware is forwarded to the
default error handler, which answers 500; `next()` passes control to the
route handler.  The route handler answers 200 `success: true` when the
dispatched handler returns and 500 `success: false` when it throws.
-/

/-- Leftmost match of the JavaScript regular expression `pat(.+)` (as in
`title.match(/Add Contact: (.+)/)`): find the first occurrence of the
literal `pat` that is followed by at least one character other than a
newline, and capture greedily up to the next newline or the end. -/
def matchCapture (pat : List Char) : List Char → Option (List Char)
  | [] => none
  | c :: rest =>
    if pat.isPrefixOf (c :: rest) then
      let captured := ((c :: rest).drop pat.length).takeWhile (fun ch => ch ≠ '\n')
      if captured.isEmpty then matchCapture pat rest else some captured
    else matchCapture pat rest

/-- String wrapper for `matchCapture`, returning the first capture group
of `pat(.+)` as the JavaScript `match` call does. -/
def jsMatchCapture (pat s : String) : Option String :=
  (matchCapture pat.toList s.toList).map (fun l => String.mk l)

/-- Pull-request payload fields read by the webhook handlers. -/
structure PullRequestInfo where
  number : Nat
  title : String
  body : String
  merged : Bool
deriving DecidableEq, Repr

/-- Inbound webhook request: the signature header, the raw body the
signature is computed over, and the parsed event fields. -/
structure WebhookRequest where
  signature : Option String
  rawBody : String
  action : String
  pull_request : Option PullRequestInfo
  repositoryPresent : Bool
deriving DecidableEq, Repr

/-- Embedding of `extractContactDataFromPR`: the title must match
`Add Contact: (.+)`, otherwise no contact data is extracted; the email,
company and contact id are read from the PR body with the analogous
patterns. -/
def extractContactDataFromPR (pr : PullRequestInfo) : Option ContactData :=
  match jsMatchCapture "Add Contact: " pr.title with
  | none => none
  | some fullName =>
    some { fullName := fullName,
           emailAddress := jsMatchCapture "**Email:** " pr.body,
           company := jsMatchCapture "**Company:** " pr.body,
           contactId := jsMatchCapture "**Contact ID:** " pr.body }

/-- Outcome of an Express middleware: send a response, throw, or call
`next()`. -/
inductive MiddlewareOutcome where
  | respond (status : Nat) (error : String)
  | raise (err : String)
  | next
deriving DecidableEq, Repr

/-- Embedding of `verifyWebhookSignature`.  `hmac` abstracts
`crypto.createHmac("sha256", WEBHOOK_SECRET).update(payload).digest("hex")`
for the fixed configured secret; its values are 64-character hex digests.
`crypto.timingSafeEqual` throws `ERR_CRYPTO_TIMING_SAFE_EQUAL_LENGTH` when
the two buffers differ in length, and otherwise reports byte equality. -/
def verifyWebhookSignature (hmac : String → String)
    (signature : Option String) (rawBody : String) : MiddlewareOutcome :=
  match signature with
  | none => .respond 401 "Missing signature"
  | some sig =>
    let expectedSignature := hmac rawBody
    if sig.length ≠ expectedSignature.length then
      .raise "ERR_CRYPTO_TIMING_SAFE_EQUAL_LENGTH"
    else if sig ≠ expectedSignature then .respond 401 "Invalid signature"
    else .next

/-- Externally visible side effect of the webhook handlers. -/
inductive Effect where
  | moqui (call : MoquiCall)
  | indexUpdate (contactId moquiId : Option String)
      (syncStatus syncedAt : String)
  | indexResetContacts
  | notify (ntype : String)
deriving DecidableEq, Repr

/-- Responses of the external calls the webhook handlers await (besides
the Moqui calls, covered by `MoquiEnv`). -/
structure WebhookEnv where
  moqui : MoquiEnv
  indexUpdateRes : Except HttpErr Unit
  notifyRes : Except HttpErr Unit
  resetRes : Except HttpErr Unit

/-- Embedding of `handlePullRequestMerged`: extract the contact from the
PR (no extraction means nothing further happens), run
`moquiService.createContact`; on success update the indexed contact to
`syncStatus: "synced"` with the returned Moqui id and send the
`contact_synced` notification; on failure the `catch` only logs and
re-raises (the failed-state index update and the `sync_failed`
notification are commented out in the source). -/
def handlePullRequestMerged (env : WebhookEnv) (now : String)
    (pr : PullRequestInfo) : Except String Unit × List Effect :=
  match extractContactDataFromPR pr with
  | none => (.ok (), [])
  | some cd =>
    let res := createContact env.moqui cd
    let base := res.2.map Effect.moqui
    if res.1.success then
      let upd := Effect.indexUpdate cd.contactId res.1.moquiId "synced" now
      match env.indexUpdateRes with
      | .error e => (.error e.msg, base ++ [upd])
      | .ok _ =>
        let ntf := Effect.notify "contact_synced"
        match env.notifyRes with
        | .error e => (.error e.msg, base ++ [upd, ntf])
        | .ok _ => (.ok (), base ++ [upd, ntf])
    else (.error "Moqui integration failed", base)

/-- Embedding of `handlePullRequestOpened`: sends the `review_requested`
notification; the surrounding `try`/`catch` swallows any failure. -/
def handlePullRequestOpened (env : WebhookEnv) (pr : PullRequestInfo) :
    Except String Unit × List Effect :=
  let _ := extractContactDataFromPR pr
  let _ := swallowError env.notifyRes
  (.ok (), [Effect.notify "review_requested"])

/-- Embedding of `handlePullRequestUpdated`: sends the `review_updated`
notification with no surrounding `try`, so a failure propagates. -/
def handlePullRequestUpdated (env : WebhookEnv) (pr : PullRequestInfo) :
    Except String Unit × List Effect :=
  let _ := pr
  match env.notifyRes with
  | .error e => (.error e.msg, [Effect.notify "review_updated"])
  | .ok _ => (.ok (), [Effect.notify "review_updated"])

/-- Embedding of `handleRepositoryDeleted`: resets the contacts index and
sends the `repository_deleted` notification; a failure of either
propagates. -/
def handleRepositoryDeleted (env : WebhookEnv) :
    Except String Unit × List Effect :=
  match env.resetRes with
  | .error e => (.error e.msg, [Effect.indexResetContacts])
  | .ok _ =>
    match env.notifyRes with
    | .error e =>
      (.error e.msg, [Effect.indexResetContacts,
        Effect.notify "repository_deleted"])
    | .ok _ =>
      (.ok (), [Effect.indexResetContacts,
        Effect.notify "repository_deleted"])

/-- Embedding of the event dispatch in the `POST /gitea` route body. -/
def giteaWebhookBody (env : WebhookEnv) (now : String)
    (req : WebhookRequest) : Except String Unit × List Effect :=
  if req.action = "deleted" ∧ req.repositoryPresent then
    handleRepositoryDeleted env
  else
    match req.pull_request with
    | some pr =>
      if req.action = "closed" ∧ pr.merged then
        handlePullRequestMerged env now pr
      else if req.action = "opened" then handlePullRequestOpened env pr
      else if req.action = "synchronized" then
        handlePullRequestUpdated env pr
      else (.ok (), [])
    | none => (.ok (), [])

/-- HTTP response of the webhook route as observed by the sender. -/
structure WebhookResponse where
  status : Nat
  success : Bool
deriving DecidableEq, Repr

/-- Embedding of the full `POST /gitea` route: the signature middleware
runs first and the handler body runs only when it calls `next()`; the
route answers 200 on a handled event and 500 when the handler throws. -/
def giteaWebhookRoute (hmac : String → String) (env : WebhookEnv)
    (now : String) (req : WebhookRequest) :
    WebhookResponse × List Effect :=
  match verifyWebhookSignature hmac req.signature req.rawBody with
  | .respond st _ => (⟨st, false⟩, [])
  | .raise _ => (⟨500, false⟩, [])
  | .next =>
    match giteaWebhookBody env now req with
    | (.ok _, eff) => (⟨200, true⟩, eff)
    | (.error _, eff) => (⟨500, false⟩, eff)

/-- Stand-in for the HMAC-SHA256 hex digest function used in concrete
counterexamples and witnesses: like the real digest every value has 64
characters, which is the only property the statements rely on. -/
def hmacDigestStub : String → String :=
  fun _ => String.mk (List.replicate 64 '0')

/-- Environment in which every external call of the webhook handlers
succeeds, used for concrete counterexamples and witnesses. -/
def webhookEnvAllOk : WebhookEnv :=
  { moqui :=
      { createPerson := .ok "P1", emailMech := .ok (), phoneMech := .ok (),
        postalMech := .ok (), findOrCreateOrganization := .ok "ORG1",
        relationship := .ok (), roles := .ok (), attributes := .ok () },
    indexUpdateRes := .ok (), notifyRes := .ok (), resetRes := .ok () }

/-- Counterexample to C2 as stated: a request carrying the 3-character
signature `abc`, which is present and differs from the 64-character
expected digest, is answered 500 (the length-mismatched
`crypto.timingSafeEqual` call throws and Express answers with the default
error handler), not 401 — though it still causes no state change and no
notification. -/
theorem webhook_wrong_length_signature_counterexample :
    (giteaWebhookRoute hmacDigestStub webhookEnvAllOk "t1"
      { signature := some "abc", rawBody := "payload", action := "closed",
        pull_request := none, repositoryPresent := false }).1.status = 500
    ∧ (giteaWebhookRoute hmacDigestStub webhookEnvAllOk "t1"
      { signature := some "abc", rawBody := "payload", action := "closed",
        pull_request := none, repositoryPresent := false }).1.status ≠ 401
    ∧ some "abc" ≠ some (hmacDigestStub "payload")
    ∧ (giteaWebhookRoute hmacDigestStub webhookEnvAllOk "t1"
      { signature := some "abc", rawBody := "payload", action := "closed",
        pull_request := none, repositoryPresent := false }).2 = [] := by
  decide

/-- C2 (amended).  Signature rejection: a missing signature is answered
401; a present signature of the same length as the expected digest that
differs from it is answered 401; a present signature whose length differs
from the digest length makes the constant-time comparison throw and the
request is answered 500.  In all three cases no effect is performed: no
index write, no downstream call, no notification. -/
theorem webhook_signature_rejection_behavior
    (hmac : String → String) (env : WebhookEnv) (now : String)
    (req : WebhookRequest) :
    (req.signature = none →
      giteaWebhookRoute hmac env now req = (⟨401, false⟩, []))
    ∧ (∀ sig, req.signature = some sig →
        sig.length = (hmac req.rawBody).length → sig ≠ hmac req.rawBody →
        giteaWebhookRoute hmac env now req = (⟨401, false⟩, []))
    ∧ (∀ sig, req.signature = some sig →
        sig.length ≠ (hmac req.rawBody).length →
        giteaWebhookRoute hmac env now req = (⟨500, false⟩, [])) := by
  refine ⟨?_, ?_, ?_⟩
  · intro hnone
    simp [giteaWebhookRoute, verifyWebhookSignature, hnone]
  · intro sig hsig hlen hne
    simp [giteaWebhookRoute, verifyWebhookSignature, hsig, hlen, hne]
  · intro sig hsig hlen
    simp [giteaWebhookRoute, verifyWebhookSignature, hsig, hlen]

/-- Witness for `webhook_signature_rejection_behavior`: missing signature,
an equal-length wrong signature, and a short signature against the
concrete digest stub. -/
theorem webhook_signature_rejection_behavior_witness :
    giteaWebhookRoute hmacDigestStub webhookEnvAllOk "t1"
      { signature := none, rawBody := "payload", action := "closed",
        pull_request := none, repositoryPresent := false }
      = (⟨401, false⟩, [])
    ∧ giteaWebhookRoute hmacDigestStub webhookEnvAllOk "t1"
      { signature := some (String.mk (List.replicate 64 (Char.ofNat 49))),
        rawBody := "payload", action := "closed",
        pull_request := none, repositoryPresent := false }
      = (⟨401, false⟩, [])
    ∧ giteaWebhookRoute hmacDigestStub webhookEnvAllOk "t1"
      { signature := some "abc", rawBody := "payload", action := "closed",
        pull_request := none, repositoryPresent := false }
      = (⟨500, false⟩, []) := by
  refine ⟨?_, ?_, ?_⟩
  · exact (webhook_signature_rejection_behavior hmacDigestStub
      webhookEnvAllOk "t1"
      { signature := none, rawBody := "payload", action := "closed",
        pull_request := none, repositoryPresent := false }).1 rfl
  · exact (webhook_signature_rejection_behavior hmacDigestStub
      webhookEnvAllOk "t1"
      { signature := some (String.mk (List.replicate 64 (Char.ofNat 49))),
        rawBody := "payload", action := "closed",
        pull_request := none, repositoryPresent := false }).2.1
      (String.mk (List.replicate 64 (Char.ofNat 49))) rfl (by decide)
      (by decide)
  · exact (webhook_signature_rejection_behavior hmacDigestStub
      webhookEnvAllOk "t1"
      { signature := some "abc", rawBody := "payload", action := "closed",
        pull_request := none, repositoryPresent := false }).2.2
      "abc" rfl (by decide)

/-- Effect discriminator: index-record update. -/
def isIndexUpdate : Effect → Bool
  | .indexUpdate _ _ _ _ => true
  | _ => false

/-- Effect discriminator: notification emission. -/
def isNotify : Effect → Bool
  | .notify _ => true
  | _ => false

/-- Counterexample to C3 as stated: a correctly signed merge webhook whose
PR matches `Add Contact: Jane Roe`, with the downstream person creation
failing (HTTP 503).  The handler re-raises and the route answers 500, but
the only effect is the attempted person creation: the indexed record is
never set to a failed state and no error notification is emitted (that
code is commented out in the source). -/
theorem merged_webhook_failure_counterexample :
    (giteaWebhookRoute hmacDigestStub
      { webhookEnvAllOk with
        moqui := { webhookEnvAllOk.moqui with
                   createPerson := .error ⟨some 503, "down"⟩ } }
      "t1"
      { signature := some (hmacDigestStub "rawbody"), rawBody := "rawbody",
        action := "closed",
        pull_request := some
          { number := 7, title := "Add Contact: Jane Roe",
            body := "**Email:** jane@x.com", merged := true },
        repositoryPresent := false })
      = (⟨500, false⟩, [Effect.moqui MoquiCall.createPerson])
    ∧ ((giteaWebhookRoute hmacDigestStub
      { webhookEnvAllOk with
        moqui := { webhookEnvAllOk.moqui with
                   createPerson := .error ⟨some 503, "down"⟩ } }
      "t1"
      { signature := some (hmacDigestStub "rawbody"), rawBody := "rawbody",
        action := "closed",
        pull_request := some
          { number := 7, title := "Add Contact: Jane Roe",
            body := "**Email:** jane@x.com", merged := true },
        repositoryPresent := false }).2.all
        (fun e => !isIndexUpdate e && !isNotify e)) = true := by
  decide

/-- C3 (amended).  For a correctly signed merge webhook whose PR carries
contact data: when propagation fails the handler re-raises, the route
answers 500, and the effect trace is exactly the attempted downstream
calls — the record state is not changed and no notification is emitted;
when propagation succeeds with a non-empty remote id and the follow-up
calls succeed, the index record is updated to `syncStatus: "synced"` with
that remote id and the `contact_synced` notification is emitted. -/
theorem handlePullRequestMerged_outcomes
    (hmac : String → String) (env : WebhookEnv) (now : String)
    (req : WebhookRequest) (pr : PullRequestInfo) (cd : ContactData)
    (hsig : req.signature = some (hmac req.rawBody))
    (hact : req.action = "closed") (hpr : req.pull_request = some pr)
    (hmerged : pr.merged = true)
    (hcd : extractContactDataFromPR pr = some cd) :
    ((createContact env.moqui cd).1.success = false →
      giteaWebhookRoute hmac env now req
        = (⟨500, false⟩, (createContact env.moqui cd).2.map Effect.moqui)
      ∧ (((createContact env.moqui cd).2.map Effect.moqui).all
          (fun e => !isIndexUpdate e && !isNotify e)) = true)
    ∧ (∀ pid : String, pid ≠ "" →
        (createContact env.moqui cd).1 = ⟨true, some pid⟩ →
        env.indexUpdateRes = .ok () → env.notifyRes = .ok () →
        giteaWebhookRoute hmac env now req
          = (⟨200, true⟩, (createContact env.moqui cd).2.map Effect.moqui
              ++ [Effect.indexUpdate cd.contactId (some pid) "synced" now,
                  Effect.notify "contact_synced"])) := by
  have hverify : verifyWebhookSignature hmac req.signature req.rawBody
      = .next := by
    simp [verifyWebhookSignature, hsig]
  have hdisp : giteaWebhookBody env now req
      = handlePullRequestMerged env now pr := by
    simp [giteaWebhookBody, hact, hpr, hmerged]
  constructor
  · intro hfail
    rcases hres : createContact env.moqui cd with ⟨r, calls⟩
    have hr : r.success = false := by
      simpa [hres] using hfail
    constructor
    · simp [giteaWebhookRoute, hverify, hdisp, handlePullRequestMerged,
        hcd, hres, hr]
    · simp [hres, List.all_map, Function.comp, isIndexUpdate, isNotify]
  · intro pid hpid hok hupd hntf
    rcases hres : createContact env.moqui cd with ⟨r, calls⟩
    have hr : r = ⟨true, some pid⟩ := by
      simpa [hres] using hok
    simp [giteaWebhookRoute, hverify, hdisp, handlePullRequestMerged,
      hcd, hres, hr, hupd, hntf]

/-- Witness for `handlePullRequestMerged_outcomes`, exercising both the
failing-propagation half (500, no update, no notification) and the
successful half (synced update with remote id `P1` plus `contact_synced`
notification) on concrete requests. -/
theorem handlePullRequestMerged_outcomes_witness :
    giteaWebhookRoute hmacDigestStub
      { webhookEnvAllOk with
        moqui := { webhookEnvAllOk.moqui with
                   createPerson := .error ⟨some 503, "down"⟩ } }
      "t1"
      { signature := some (hmacDigestStub "rawbody"), rawBody := "rawbody",
        action := "closed",
        pull_request := some
          { number := 7, title := "Add Contact: Jane Roe",
            body := "**Email:** jane@x.com", merged := true },
        repositoryPresent := false }
      = (⟨500, false⟩, [Effect.moqui MoquiCall.createPerson])
    ∧ giteaWebhookRoute hmacDigestStub webhookEnvAllOk "t1"
      { signature := some (hmacDigestStub "rawbody"), rawBody := "rawbody",
        action := "closed",
        pull_request := some
          { number := 7, title := "Add Contact: Jane Roe",
            body := "**Email:** jane@x.com", merged := true },
        repositoryPresent := false }
      = (⟨200, true⟩,
         [Effect.moqui MoquiCall.createPerson,
          Effect.moqui MoquiCall.emailMech,
          Effect.indexUpdate none (some "P1") "synced" "t1",
          Effect.notify "contact_synced"]) := by
  constructor
  · have h := handlePullRequestMerged_outcomes hmacDigestStub
      { webhookEnvAllOk with
        moqui := { webhookEnvAllOk.moqui with
                   createPerson := .error ⟨some 503, "down"⟩ } }
      "t1"
      { signature := some (hmacDigestStub "rawbody"), rawBody := "rawbody",
        action := "closed",
        pull_request := some
          { number := 7, title := "Add Contact: Jane Roe",
            body := "**Email:** jane@x.com", merged := true },
        repositoryPresent := false }
      { number := 7, title := "Add Contact: Jane Roe",
        body := "**Email:** jane@x.com", merged := true }
      { fullName := "Jane Roe", emailAddress := some "jane@x.com",
        company := none, contactId := none }
      rfl rfl rfl rfl (by decide)
    have h1 := (h.1 (by decide)).1
    simpa using h1
  · have h := handlePullRequestMerged_outcomes hmacDigestStub
      webhookEnvAllOk "t1"
      { signature := some (hmacDigestStub "rawbody"), rawBody := "rawbody",
        action := "closed",
        pull_request := some
          { number := 7, title := "Add Contact: Jane Roe",
            body := "**Email:** jane@x.com", merged := true },
        repositoryPresent := false }
      { number := 7, title := "Add Contact: Jane Roe",
        body := "**Email:** jane@x.com", merged := true }
      { fullName := "Jane Roe", emailAddress := some "jane@x.com",
        company := none, contactId := none }
      rfl rfl rfl rfl (by decide)
    have h2 := h.2 "P1" (by decide) (by decide) rfl rfl
    simpa using h2

/-- C10.  For every correctly signed merge webhook whose pull-request
title does not match `Add Contact: (.+)`, the merged-PR handler extracts
no contact data and performs no downstream creation, no index update and
no notification, and the endpoint still answers 200 success — non-contact
merges are silently ignored. -/
theorem merged_webhook_nonmatching_title_ignored
    (hmac : String → String) (env : WebhookEnv) (now : String)
    (req : WebhookRequest) (pr : PullRequestInfo)
    (hsig : req.signature = some (hmac req.rawBody))
    (hact : req.action = "closed") (hpr : req.pull_request = some pr)
    (hmerged : pr.merged = true)
    (htitle : jsMatchCapture "Add Contact: " pr.title = none) :
    extractContactDataFromPR pr = none
    ∧ giteaWebhookRoute hmac env now req = (⟨200, true⟩, []) := by
  have hext : extractContactDataFromPR pr = none := by
    simp [extractContactDataFromPR, htitle]
  have hverify : verifyWebhookSignature hmac req.signature req.rawBody
      = .next := by
    simp [verifyWebhookSignature, hsig]
  have hdisp : giteaWebhookBody env now req
      = handlePullRequestMerged env now pr := by
    simp [giteaWebhookBody, hact, hpr, hmerged]
  exact ⟨hext, by
    simp [giteaWebhookRoute, hverify, hdisp, handlePullRequestMerged, hext]⟩

/-- Witness for `merged_webhook_nonmatching_title_ignored` on a merged PR
titled `Fix typo in README`. -/
theorem merged_webhook_nonmatching_title_ignored_witness :
    extractContactDataFromPR
      { number := 9, title := "Fix typo in README", body := "", merged := true }
      = none
    ∧ giteaWebhookRoute hmacDigestStub webhookEnvAllOk "t1"
      { signature := some (hmacDigestStub "rawbody"), rawBody := "rawbody",
        action := "closed",
        pull_request := some
          { number := 9, title := "Fix typo in README", body := "",
            merged := true },
        repositoryPresent := false }
      = (⟨200, true⟩, []) :=
  merged_webhook_nonmatching_title_ignored hmacDigestStub webhookEnvAllOk
    "t1"
    { signature := some (hmacDigestStub "rawbody"), rawBody := "rawbody",
      action := "closed",
      pull_request := some
        { number := 9, title := "Fix typo in README", body := "",
          merged := true },
      repositoryPresent := false }
    { number := 9, title := "Fix typo in README", body := "", merged := true }
    rfl rfl rfl rfl (by decide)

/-!
SECTION: Record transformer (cdmModels.js: `transformToCdmContact`,
`validateCdmContact`, `cdmContactSchema`)

The Joi schema is embedded as a list of per-field checkers producing the
violation messages for that field; `validate` with `abortEarly: false`
(as the source calls it) concatenates the violations of every field into
one error, whereas `abortEarly: true` would stop at the first.  The Joi
internal email test is an external library predicate and is taken as the
parameter `emailValid`; the phone pattern of the schema is embedded
concretely.
-/

/-- Raw form fields read by `transformToCdmContact` (absent field =
`undefined`/`null`). -/
structure FormData where
  contactId : Option String := none
  fullName : Option String := none
  firstName : Option String := none
  lastName : Option String := none
  emailAddress : Option String := none
  email : Option String := none
  phoneNumber : Option String := none
  phone : Option String := none
  company : Option String := none
  organization : Option String := none
  addressLine1 : Option String := none
  address1 : Option String := none
  addressLine2 : Option String := none
  address2 : Option String := none
  city : Option String := none
  stateProvince : Option String := none
  state : Option String := none
  postalCode : Option String := none
  zipCode : Option String := none
  country : Option String := none
  jobTitle : Option String := none
  title : Option String := none
  department : Option String := none
  preferredContactMethod : Option String := none
  notes : Option String := none
  comments : Option String := none
  tags : Option (List String) := none
  customFields : Option (List (String × String)) := none
  isActive : Option Bool := none
  createdOn : Option String := none
  createdBy : Option String := none
deriving Repr

/-- The `cdmData` object `transformToCdmContact` builds before
validation. -/
structure CdmData where
  contactId : String
  fullName : String
  emailAddress : Option String
  phoneNumber : Option String
  company : Option String
  addressLine1 : Option String
  addressLine2 : Option String
  city : Option String
  stateProvince : Option String
  postalCode : Option String
  country : Option String
  jobTitle : Option String
  department : Option String
  preferredContactMethod : String
  isActive : Bool
  notes : Option String
  tags : List String
  customFields : List (String × String)
  createdOn : String
  modifiedOn : String
  createdBy : String
  modifiedBy : String
deriving DecidableEq, Repr

/-- JavaScript `String.prototype.trim`: strip leading and trailing
whitespace (computed on the character list so that concrete instances
evaluate). -/
def jsTrim (s : String) : String :=
  String.mk
    (((s.toList.dropWhile (fun c => c.isWhitespace)).reverse.dropWhile
      (fun c => c.isWhitespace)).reverse)

/-- Embedding of the object literal in `transformToCdmContact`: each field
falls back through the JavaScript `||` chains of the source; `uuid` stands
for the `uuidv4()` call, `now` for `new Date()` and `userId` for the actor
argument. -/
def buildCdmData (uuid now userId : String) (f : FormData) : CdmData :=
  { contactId := jsOrStr f.contactId uuid,
    fullName := jsOrStr f.fullName
      (jsTrim (f.firstName.getD "" ++ " " ++ f.lastName.getD "")),
    emailAddress := jsOr f.emailAddress f.email,
    phoneNumber := jsOr f.phoneNumber f.phone,
    company := jsOr f.company f.organization,
    addressLine1 := jsOr f.addressLine1 f.address1,
    addressLine2 := jsOr f.addressLine2 f.address2,
    city := f.city,
    stateProvince := jsOr f.stateProvince f.state,
    postalCode := jsOr f.postalCode f.zipCode,
    country := f.country,
    jobTitle := jsOr f.jobTitle f.title,
    department := f.department,
    preferredContactMethod := jsOrStr f.preferredContactMethod "email",
    isActive := f.isActive.getD true,
    notes := jsOr f.notes f.comments,
    tags := f.tags.getD [],
    customFields := f.customFields.getD [],
    createdOn := jsOrStr f.createdOn now,
    modifiedOn := now,
    createdBy := jsOrStr f.createdBy userId,
    modifiedBy := userId }

/-- Characters admitted by the schema pattern `[0-9\s\-\(\)]`. -/
def phoneChar (c : Char) : Bool :=
  c.isDigit || c.isWhitespace || c = '-' || c = '(' || c = ')'

/-- The schema phone pattern `^[\+]?[0-9\s\-\(\)]+$`: an optional leading
plus sign followed by at least one admitted character. -/
def phonePattern (s : String) : Bool :=
  let l :=
    match s.toList with
    | '+' :: rest => rest
    | l => l
  !l.isEmpty && l.all phoneChar

/-- Check of an optional bounded string field
(`Joi.string().max(limit).optional().allow(null, "")`). -/
def optionalMaxCheck (name : String) (limit : Nat) (v : Option String) :
    List String :=
  match v with
  | none => []
  | some s =>
    if s = "" then []
    else if s.length > limit then
      [name ++ " length must be less than or equal to " ++ toString limit
        ++ " characters long"]
    else []

/-- Embedding of `cdmContactSchema`: one checker per schema key, in schema
order, producing the violation messages of that key.  Keys whose constraints
are satisfied by construction of `buildCdmData` (defaults, booleans,
arrays, objects, dates) have no violations. -/
def cdmContactChecks (emailValid : String → Bool) :
    List (String × (CdmData → List String)) := [
  ("contactId", fun _ => []),
  ("fullName", fun v =>
    (if v.fullName = "" then ["fullName is not allowed to be empty"] else [])
    ++ (if v.fullName.length > 255 then
      ["fullName length must be less than or equal to 255 characters long"]
    else [])),
  ("emailAddress", fun v =>
    match v.emailAddress with
    | none => ["emailAddress is required"]
    | some s =>
      if s = "" then ["emailAddress is not allowed to be empty"]
      else if emailValid s then [] else ["emailAddress must be a valid email"]),
  ("phoneNumber", fun v =>
    match v.phoneNumber with
    | none => []
    | some s =>
      if s = "" then []
      else if phonePattern s then []
      else ["phoneNumber fails to match the required pattern"]),
  ("company", fun v => optionalMaxCheck "company" 255 v.company),
  ("addressLine1", fun v => optionalMaxCheck "addressLine1" 255 v.addressLine1),
  ("addressLine2", fun v => optionalMaxCheck "addressLine2" 255 v.addressLine2),
  ("city", fun v => optionalMaxCheck "city" 100 v.city),
  ("stateProvince", fun v => optionalMaxCheck "stateProvince" 100 v.stateProvince),
  ("postalCode", fun v => optionalMaxCheck "postalCode" 20 v.postalCode),
  ("country", fun v => optionalMaxCheck "country" 100 v.country),
  ("jobTitle", fun v => optionalMaxCheck "jobTitle" 255 v.jobTitle),
  ("department", fun v => optionalMaxCheck "department" 255 v.department),
  ("preferredContactMethod", fun v =>
    if v.preferredContactMethod = "email" ∨ v.preferredContactMethod = "phone"
        ∨ v.preferredContactMethod = "mail" then []
    else ["preferredContactMethod must be one of email, phone, mail"]),
  ("isActive", fun _ => []),
  ("notes", fun v => optionalMaxCheck "notes" 1000 v.notes),
  ("tags", fun _ => []),
  ("customFields", fun _ => []),
  ("createdOn", fun _ => []),
  ("modifiedOn", fun _ => []),
  ("createdBy", fun _ => []),
  ("modifiedBy", fun _ => [])]

/-- Joi error collection: with `abortEarly: false` every violation of
every field is kept, in schema order; with `abortEarly: true` only the
first violation would be reported. -/
def joiErrors (abortEarly : Bool)
    (checks : List (String × (CdmData → List String))) (v : CdmData) :
    List String :=
  let all := checks.foldr (fun c acc => c.2 v ++ acc) []
  if abortEarly then all.take 1 else all

/-- Embedding of `validateCdmContact`: the source calls
`cdmContactSchema.validate(data, { abortEarly: false, ... })` and throws a
single error carrying every collected violation message when the list is
non-empty. -/
def validateCdmContact (emailValid : String → Bool) (v : CdmData) :
    Except (List String) CdmData :=
  match joiErrors false (cdmContactChecks emailValid) v with
  | [] => .ok v
  | es => .error es

/-- Embedding of `transformToCdmContact`: build the CDM object with the
fallback chains and validate it. -/
def transformToCdmContact (emailValid : String → Bool)
    (uuid now userId : String) (f : FormData) : Except (List String) CdmData :=
  validateCdmContact emailValid (buildCdmData uuid now userId f)

/-- A violation of the i-th field checker appears in the collected
violations when `abortEarly` is off. -/
theorem mem_joiErrors_of_mem
    (checks : List (String × (CdmData → List String))) (v : CdmData)
    (i : Fin checks.length) (msg : String)
    (h : msg ∈ (checks.get i).2 v) :
    msg ∈ joiErrors false checks v := by
  induction checks with
  | nil => exact absurd i.isLt (by simp)
  | cons c cs ih =>
      rcases i with ⟨iv, hlt⟩
      cases iv with
      | zero =>
          simp only [joiErrors, if_neg Bool.false_ne_true, List.foldr]
          exact List.mem_append_left _ (by simpa using h)
      | succ n =>
          simp only [joiErrors, if_neg Bool.false_ne_true, List.foldr]
          refine List.mem_append_right _ ?_
          have hn : n < cs.length := by simpa using hlt
          have := ih ⟨n, hn⟩ (by simpa using h)
          simpa [joiErrors] using this

/-- C5.  For every raw input map and every constraint violation of any
schema field of the built record, the single validation error raised by
`Transform` contains that violation: all failing and invalid fields are
collected before reporting, not only the first one. -/
theorem transformToCdmContact_collects_all_violations
    (emailValid : String → Bool) (uuid now userId : String) (f : FormData)
    (i : Fin (cdmContactChecks emailValid).length) (msg : String)
    (hmsg : msg ∈ ((cdmContactChecks emailValid).get i).2
        (buildCdmData uuid now userId f)) :
    ∃ msgs, transformToCdmContact emailValid uuid now userId f = .error msgs
      ∧ msg ∈ msgs := by
  have hall := mem_joiErrors_of_mem _ _ i msg hmsg
  unfold transformToCdmContact validateCdmContact
  rcases h : joiErrors false (cdmContactChecks emailValid)
      (buildCdmData uuid now userId f) with _ | ⟨m, ms⟩
  · rw [h] at hall
    cases hall
  · rw [h] at hall
    exact ⟨m :: ms, rfl, hall⟩

/-- Witness for `transformToCdmContact_collects_all_violations`: an empty
form (no name, no email) with an invalid preferred-contact-method; the one
raised error contains the email violation, the name violation and the
contact-method violation together. -/
theorem transformToCdmContact_collects_all_violations_witness :
    ∃ msgs,
      transformToCdmContact (fun s => s.contains '@') "uuid-1" "t1" "tester"
        { preferredContactMethod := some "fax" } = .error msgs
      ∧ "emailAddress is required" ∈ msgs
      ∧ "fullName is not allowed to be empty" ∈ msgs
      ∧ "preferredContactMethod must be one of email, phone, mail" ∈ msgs := by
  obtain ⟨msgs1, hm1, hmem1⟩ :=
    transformToCdmContact_collects_all_violations
      (fun s => s.contains '@') "uuid-1" "t1" "tester"
      { preferredContactMethod := some "fax" }
      ⟨2, by decide⟩ "emailAddress is required" (by decide)
  obtain ⟨msgs2, hm2, hmem2⟩ :=
    transformToCdmContact_collects_all_violations
      (fun s => s.contains '@') "uuid-1" "t1" "tester"
      { preferredContactMethod := some "fax" }
      ⟨1, by decide⟩ "fullName is not allowed to be empty" (by decide)
  obtain ⟨msgs3, hm3, hmem3⟩ :=
    transformToCdmContact_collects_all_violations
      (fun s => s.contains '@') "uuid-1" "t1" "tester"
      { preferredContactMethod := some "fax" }
      ⟨13, by decide⟩
      "preferredContactMethod must be one of email, phone, mail" (by decide)
  refine ⟨msgs1, hm1, hmem1, ?_, ?_⟩
  · have : msgs2 = msgs1 := by
      have := hm2.symm.trans hm1
      simpa using this
    exact this ▸ hmem2
  · have : msgs3 = msgs1 := by
      have := hm3.symm.trans hm1
      simpa using this
    exact this ▸ hmem3

/-!
SECTION: Merge retry loop and pipeline traces (dataController.js)

`POST /api/data/test/complete-flow` contains the only retry loop of the
pipeline: up to `maxRetries = 5` attempts at `mergePullRequest`, breaking
on the first success, with a fixed `retryDelayMs = 2000` sleep after every
failed attempt except the last.  The synchronous submission route
`POST /api/data/contacts` and the rest of the complete-flow body call each
adapter operation at most once.
-/

/-- Per-run outcome of the merge retry loop: whether a merge succeeded,
how many `mergePullRequest` calls were made, and the sleeps inserted
between failed attempts. -/
structure MergeLoopResult where
  mergeSuccess : Bool
  mergeCalls : Nat
  delays : List Nat
deriving DecidableEq, Repr

/-- One pass of the `for (attempt = 1; attempt <= maxRetries; attempt++)`
loop: `outcome k` is the result of the k-th `mergePullRequest` call,
`remaining` the attempts still allowed (including the current one).  A
success breaks out; a failure sleeps `retryDelayMs` unless this was the
last allowed attempt. -/
def runMergeLoop (outcome : Nat → Except HttpErr Unit) (retryDelayMs : Nat) :
    Nat → Nat → MergeLoopResult
  | _, 0 => ⟨false, 0, []⟩
  | attempt, r + 1 =>
    match outcome attempt with
    | .ok _ => ⟨true, 1, []⟩
    | .error _ =>
      if r = 0 then ⟨false, 1, []⟩
      else
        let rest := runMergeLoop outcome retryDelayMs (attempt + 1) r
        ⟨rest.mergeSuccess, rest.mergeCalls + 1, retryDelayMs :: rest.delays⟩

/-- The loop as instantiated in the source: `maxRetries = 5`,
`retryDelayMs = 2000`, attempts numbered from 1. -/
def mergeRetryLoop (outcome : Nat → Except HttpErr Unit) : MergeLoopResult :=
  runMergeLoop outcome 2000 1 5

theorem runMergeLoop_succ (outcome : Nat → Except HttpErr Unit)
    (d a n : Nat) :
    runMergeLoop outcome d a (n + 1) =
      match outcome a with
      | .ok _ => ⟨true, 1, []⟩
      | .error _ =>
        if n = 0 then ⟨false, 1, []⟩
        else ⟨(runMergeLoop outcome d (a + 1) n).mergeSuccess,
              (runMergeLoop outcome d (a + 1) n).mergeCalls + 1,
              d :: (runMergeLoop outcome d (a + 1) n).delays⟩ := rfl

theorem runMergeLoop_calls_le (outcome : Nat → Except HttpErr Unit)
    (d : Nat) : ∀ r a, (runMergeLoop outcome d a r).mergeCalls ≤ r := by
  intro r
  induction r with
  | zero => intro a; simp [runMergeLoop]
  | succ n ih =>
      intro a
      rw [runMergeLoop_succ]
      rcases h : outcome a with e | u
      · by_cases hn : n = 0
        · simp [h, hn]
        · have h2 := ih (a + 1)
          simp [h, hn]
          omega
      · simp [h]

theorem runMergeLoop_delays_eq (outcome : Nat → Except HttpErr Unit)
    (d : Nat) : ∀ r a, ∀ x ∈ (runMergeLoop outcome d a r).delays, x = d := by
  intro r
  induction r with
  | zero => intro a x hx; simp [runMergeLoop] at hx
  | succ n ih =>
      intro a x hx
      rw [runMergeLoop_succ] at hx
      rcases h : outcome a with e | u
      · by_cases hn : n = 0
        · simp [h, hn] at hx
        · simp [h, hn] at hx
          rcases hx with hx | hx
          · exact hx
          · exact ih (a + 1) x hx
      · simp [h] at hx

theorem runMergeLoop_first_success (outcome : Nat → Except HttpErr Unit)
    (d : Nat) :
    ∀ k r a, k < r → (∀ j, j < k → outcome (a + j) ≠ .ok ()) →
      outcome (a + k) = .ok () →
      runMergeLoop outcome d a r
        = ⟨true, k + 1, List.replicate k d⟩ := by
  intro k
  induction k with
  | zero =>
      intro r a hk _ hok
      rcases r with _ | n
      · omega
      · simp at hok
        rw [runMergeLoop_succ, hok]
        simp [List.replicate]
  | succ m ih =>
      intro r a hk hfail hok
      rcases r with _ | n
      · omega
      · have h0 : outcome a ≠ .ok () := by
          have := hfail 0 (by omega)
          simpa using this
        rcases ha : outcome a with e | u
        · have hn0 : n ≠ 0 := by omega
          have hrec := ih n (a + 1) (by omega)
            (fun j hj => by
              have := hfail (j + 1) (by omega)
              simpa [Nat.add_comm, Nat.add_assoc, Nat.add_left_comm]
                using this)
            (by
              have he : a + 1 + m = a + (m + 1) := by omega
              rw [he]
              exact hok)
          rw [runMergeLoop_succ]
          simp [ha, hn0, hrec, List.replicate]
        · rcases u
          exact absurd ha h0

theorem runMergeLoop_all_fail (outcome : Nat → Except HttpErr Unit)
    (d : Nat) :
    ∀ r a, 0 < r → (∀ j, j < r → outcome (a + j) ≠ .ok ()) →
      runMergeLoop outcome d a r
        = ⟨false, r, List.replicate (r - 1) d⟩ := by
  intro r
  induction r with
  | zero => intro a h; omega
  | succ n ih =>
      intro a _ hfail
      have h0 : outcome a ≠ .ok () := by
        have := hfail 0 (by omega)
        simpa using this
      rcases ha : outcome a with e | u
      · by_cases hn : n = 0
        · subst hn
          rw [runMergeLoop_succ]
          simp [ha, List.replicate]
        · have hrec := ih (a + 1) (by omega)
            (fun j hj => by
              have := hfail (j + 1) (by omega)
              simpa [Nat.add_comm, Nat.add_assoc, Nat.add_left_comm]
                using this)
          rw [runMergeLoop_succ]
          rcases hm : n with _ | m
          · exact absurd hm hn
          · rw [hm] at hrec
            simp [ha, hrec, List.replicate]
      · rcases u
        exact absurd ha h0

/-- Adapter operations of the submission pipeline, at the granularity of
the service calls the controllers make. -/
inductive AdapterOp where
  | commitCdmData
  | indexContact
  | mergePullRequest
  | moquiCreateContact
  | indexUpdateContact
deriving DecidableEq, Repr

/-- Responses of the external calls of the `POST /test/complete-flow`
route. -/
structure FlowEnv where
  commit : CommitEnv
  indexContactRes : Except HttpErr Unit
  mergeOutcome : Nat → Except HttpErr Unit
  moqui : MoquiEnv
  updateRes : Except HttpErr Unit

/-- Embedding of the `POST /api/data/contacts` submission route as a trace
of adapter operations: commit (once), then index (once); a failure of
either aborts with 500. -/
def submitContactFlow (cenv : CommitEnv)
    (indexRes : Except HttpErr Unit) (branchName : String) :
    Bool × List AdapterOp :=
  match (commitCdmData cenv branchName).1 with
  | .error _ => (false, [.commitCdmData])
  | .ok _ =>
    match indexRes with
    | .error _ => (false, [.commitCdmData, .indexContact])
    | .ok _ => (true, [.commitCdmData, .indexContact])

/-- Embedding of the `POST /api/data/test/complete-flow` route as a trace
of adapter operations: commit, index, the merge retry loop, one
`moquiService.createContact`, and one index update when the Moqui sync
succeeded; the route reports success even when merge or Moqui sync
failed. -/
def completeFlow (env : FlowEnv) (c : ContactData) (branchName : String) :
    Bool × List AdapterOp :=
  match (commitCdmData env.commit branchName).1 with
  | .error _ => (false, [.commitCdmData])
  | .ok _ =>
    match env.indexContactRes with
    | .error _ => (false, [.commitCdmData, .indexContact])
    | .ok _ =>
      let mr := mergeRetryLoop env.mergeOutcome
      let pre := [AdapterOp.commitCdmData, AdapterOp.indexContact]
        ++ List.replicate mr.mergeCalls AdapterOp.mergePullRequest
      let res := createContact env.moqui c
      if res.1.success then
        match env.updateRes with
        | .error _ =>
          (false, pre ++ [.moquiCreateContact, .indexUpdateContact])
        | .ok _ => (true, pre ++ [.moquiCreateContact, .indexUpdateContact])
      else (true, pre ++ [.moquiCreateContact])

/-- C7.  Only the test/automation merge path retries `mergePullRequest`:
at most 5 attempts are made, every inserted delay is the fixed 2000 ms,
the loop stops at the first success (k preceding failures give exactly
k + 1 calls and k delays), five failures give 5 calls and 4 delays, and in
both the complete-flow trace and the synchronous submission trace every
adapter operation other than `mergePullRequest` occurs at most once, while
`mergePullRequest` occurs at most 5 times. -/
theorem merge_retry_policy (env : FlowEnv) (c : ContactData)
    (branchName : String) :
    (mergeRetryLoop env.mergeOutcome).mergeCalls ≤ 5
    ∧ (∀ x ∈ (mergeRetryLoop env.mergeOutcome).delays, x = 2000)
    ∧ (∀ k, k < 5 → (∀ j, j < k → env.mergeOutcome (1 + j) ≠ .ok ()) →
        env.mergeOutcome (1 + k) = .ok () →
        mergeRetryLoop env.mergeOutcome
          = ⟨true, k + 1, List.replicate k 2000⟩)
    ∧ ((∀ j, j < 5 → env.mergeOutcome (1 + j) ≠ .ok ()) →
        mergeRetryLoop env.mergeOutcome
          = ⟨false, 5, List.replicate 4 2000⟩)
    ∧ (∀ op, op ≠ AdapterOp.mergePullRequest →
        (completeFlow env c branchName).2.count op ≤ 1)
    ∧ (completeFlow env c branchName).2.count AdapterOp.mergePullRequest ≤ 5
    ∧ (∀ op,
        (submitContactFlow env.commit env.indexContactRes branchName).2.count
          op ≤ 1) := by
  have hle := runMergeLoop_calls_le env.mergeOutcome 2000 5 1
  refine ⟨hle, runMergeLoop_delays_eq _ _ 5 1, ?_, ?_, ?_, ?_, ?_⟩
  · intro k hk hfail hok
    exact runMergeLoop_first_success env.mergeOutcome 2000 k 5 1 hk hfail hok
  · intro hfail
    exact runMergeLoop_all_fail env.mergeOutcome 2000 5 1 (by omega) hfail
  · intro op hop
    rcases h1 : (commitCdmData env.commit branchName).1 with e | pr
    · rcases op <;> simp [completeFlow, h1, List.count_cons]
    · rcases h2 : env.indexContactRes with e | u
      · rcases op <;> simp [completeFlow, h1, h2, List.count_cons]
      · rcases hs : (createContact env.moqui c).1.success
        · rcases op <;>
            first
            | exact absurd rfl hop
            | simp [completeFlow, h1, h2, hs, List.count_append,
                List.count_replicate, List.count_cons]
        · rcases h3 : env.updateRes with e | u <;> rcases op <;>
            first
            | exact absurd rfl hop
            | simp [completeFlow, h1, h2, hs, h3, List.count_append,
                List.count_replicate, List.count_cons]
  · rcases h1 : (commitCdmData env.commit branchName).1 with e | pr
    · simp [completeFlow, h1, List.count_cons]
    · rcases h2 : env.indexContactRes with e | u
      · simp [completeFlow, h1, h2, List.count_cons]
      · rcases hs : (createContact env.moqui c).1.success
        · simp [completeFlow, h1, h2, hs, List.count_append,
            List.count_replicate, List.count_cons, mergeRetryLoop]
          simpa [mergeRetryLoop] using hle
        · rcases h3 : env.updateRes with e | u <;>
            · simp [completeFlow, h1, h2, hs, h3, List.count_append,
                List.count_replicate, List.count_cons, mergeRetryLoop]
              simpa [mergeRetryLoop] using hle
  · intro op
    rcases h1 : (commitCdmData env.commit branchName).1 with e | pr
    · rcases op <;> simp [submitContactFlow, h1, List.count_cons]
    · rcases h2 : env.indexContactRes with e | u <;> rcases op <;>
        simp [submitContactFlow, h1, h2, List.count_cons]

/-- Witness for `merge_retry_policy`: the first two merge attempts fail
with a transient pending-validation error and the third succeeds — the
loop makes exactly 3 calls with two 2000 ms delays — and in the concrete
complete-flow trace the commit operation occurs at most once. -/
theorem merge_retry_policy_witness :
    mergeRetryLoop
      (fun n => if n ≤ 2 then .error ⟨none, "pending validation"⟩ else .ok ())
      = ⟨true, 3, List.replicate 2 2000⟩
    ∧ (completeFlow
        { commit :=
            { ensureRepo := .ok (), baseRef := .ok "sha-main",
              createBranchApi := .ok (),
              dataFile := ⟨.ok none, .ok (), .ok ()⟩,
              metadataFile := ⟨.ok none, .ok (), .ok ()⟩,
              createPR := .ok 7, deleteBranch := .ok () },
          indexContactRes := .ok (),
          mergeOutcome :=
            (fun n => if n ≤ 2 then .error ⟨none, "pending validation"⟩
              else .ok ()),
          moqui :=
            { createPerson := .ok "P1", emailMech := .ok (),
              phoneMech := .ok (), postalMech := .ok (),
              findOrCreateOrganization := .ok "ORG1",
              relationship := .ok (), roles := .ok (), attributes := .ok () },
          updateRes := .ok () }
        { fullName := "Flane weld flane",
          emailAddress := some "flane@hooli.com" }
        "contact-abc").2.count AdapterOp.commitCdmData ≤ 1 := by
  have h := merge_retry_policy
    { commit :=
        { ensureRepo := .ok (), baseRef := .ok "sha-main",
          createBranchApi := .ok (),
          dataFile := ⟨.ok none, .ok (), .ok ()⟩,
          metadataFile := ⟨.ok none, .ok (), .ok ()⟩,
          createPR := .ok 7, deleteBranch := .ok () },
      indexContactRes := .ok (),
      mergeOutcome :=
        (fun n => if n ≤ 2 then .error ⟨none, "pending validation"⟩
          else .ok ()),
      moqui :=
        { createPerson := .ok "P1", emailMech := .ok (),
          phoneMech := .ok (), postalMech := .ok (),
          findOrCreateOrganization := .ok "ORG1",
          relationship := .ok (), roles := .ok (), attributes := .ok () },
      updateRes := .ok () }
    { fullName := "Flane weld flane", emailAddress := some "flane@hooli.com" }
    "contact-abc"
  refine ⟨?_, h.2.2.2.2.1 AdapterOp.commitCdmData (by decide)⟩
  have hx := h.2.2.1 2 (by omega)
    (fun j hj => by
      interval_cases j
      · exact fun hc => Except.noConfusion hc
      · exact fun hc => Except.noConfusion hc)
    rfl
  simpa using hx
